import Mathlib

/-!
# EK79007 MIPI-DSI panel driver (`panel-fitipower-ek79007.c`)

A shallow embedding of the driver's lifecycle callbacks (`prepare`, `enable`,
`disable`, `unprepare`), of its mode provider (`get_modes`) and of `probe`,
followed by theorems about the order of the calls the driver makes on its
collaborators (regulator, reset GPIO, DSI transport, sleeps).

Conventions of the embedding:
* `u8`, `int`, `size_t` values are naturals / integers; no arithmetic in the
  driver can overflow (the loop counter `i` and `init_length` have the same
  width on the 32-bit target).
* A pointer to a collaborator object is modelled by the state of that object.
* Every call on a collaborator is appended to a trace; the values returned by
  fallible collaborators are read from an environment `Env`.
-/

namespace EK79007

/-! ## Data model -/

/-- One vendor initialisation step: `struct ek79007_instr`, the tag
`enum ek79007_op` together with the member of `union arg` selected by it.
The two constructors are what `EK79007_SWITCH_PAGE_INSTR(_page)` and
`EK79007_COMMAND_INSTR(_cmd, _data)` build. Bytes (`u8`) are naturals. -/
inductive ek79007_instr where
  | EK79007_SWITCH_PAGE (page : Nat)
  | EK79007_COMMAND (cmd : Nat) (data : Nat)
  deriving DecidableEq

/-- The fields of `struct drm_display_mode` the driver reads or writes. -/
structure drm_display_mode where
  clock : Nat
  hdisplay : Nat
  hsync_start : Nat
  hsync_end : Nat
  htotal : Nat
  vdisplay : Nat
  vsync_start : Nat
  vsync_end : Nat
  vtotal : Nat
  width_mm : Nat
  height_mm : Nat
  type : Nat
  name : String
  deriving DecidableEq

/-- A designator `.field` of an initialiser of `struct drm_display_mode`. -/
inductive Designator where
  | clock | hdisplay | hsync_start | hsync_end | htotal
  | vdisplay | vsync_start | vsync_end | vtotal
  | width_mm | height_mm
  deriving DecidableEq

/-- An object with static storage duration before any initialiser is applied:
every member is zero. -/
def drm_display_mode.zeroed : drm_display_mode :=
  ⟨0, 0, 0, 0, 0, 0, 0, 0, 0, 0, 0, 0, ""⟩

/-- The effect of one designated initialiser `.field = value`. -/
def drm_display_mode.assign (m : drm_display_mode) (d : Designator) (v : Nat) :
    drm_display_mode :=
  match d with
  | .clock => { m with clock := v }
  | .hdisplay => { m with hdisplay := v }
  | .hsync_start => { m with hsync_start := v }
  | .hsync_end => { m with hsync_end := v }
  | .htotal => { m with htotal := v }
  | .vdisplay => { m with vdisplay := v }
  | .vsync_start => { m with vsync_start := v }
  | .vsync_end => { m with vsync_end := v }
  | .vtotal => { m with vtotal := v }
  | .width_mm => { m with width_mm := v }
  | .height_mm => { m with height_mm := v }

/-- Evaluation of a designated initialiser list (C11 6.7.9 §19 and §21): the
initialisers are applied in list order, a later initialiser of a member
overrides an earlier one, and members never named stay zero. -/
def drm_display_mode.initialise (l : List (Designator × Nat)) : drm_display_mode :=
  l.foldl (fun m dv => m.assign dv.1 dv.2) drm_display_mode.zeroed

/-- Descriptor of one panel model: `struct ek79007_desc`. The array `init` and
its length `init_length` are one list. -/
structure ek79007_desc where
  init : List ek79007_instr
  mode : drm_display_mode
  deriving DecidableEq

/-- The member `init_length`: `ARRAY_SIZE` of the `init` table. -/
def ek79007_desc.init_length (d : ek79007_desc) : Nat := d.init.length

/-- State of the power rail behind `struct regulator *power`: the number of
enables not yet balanced by a disable. The rail is off when it is zero. -/
structure regulator where
  use_count : Nat
  deriving DecidableEq

/-- State of the reset line behind `struct gpio_desc *reset`: its logical value,
1 when reset is asserted. -/
structure gpio_desc where
  value : Nat
  deriving DecidableEq

/-- The members of `struct mipi_dsi_device` that `probe` configures. -/
structure mipi_dsi_device where
  mode_flags : Nat
  format : Nat
  lanes : Nat
  deriving DecidableEq

/-- The driver instance: `struct ek79007`. -/
structure ek79007 where
  dsi : mipi_dsi_device
  desc : ek79007_desc
  power : regulator
  reset : gpio_desc
  deriving DecidableEq

/-! ## Collaborators -/

/-- A call made by the driver on one of its collaborators. -/
inductive Call where
  | regulator_enable
  | regulator_disable
  | msleep (msecs : Nat)
  | gpiod_set_value (value : Nat)
  | mipi_dsi_dcs_write_buffer (buff : List Nat)
  | mipi_dsi_dcs_exit_sleep_mode
  | mipi_dsi_dcs_enter_sleep_mode
  | mipi_dsi_dcs_set_display_on
  | mipi_dsi_dcs_set_display_off
  deriving DecidableEq

/-- Outcomes of the fallible collaborators during one driver call:
the value returned by `regulator_enable`, and the value returned by the
`n`-th call (counted from 0) on the DSI command transport. -/
structure Env where
  regulator_enable : Int
  dsi : Nat → Int

/-- The instance and what the driver call has done so far: the number of DSI
transport calls made and the trace of all collaborator calls, oldest first. -/
structure World where
  ctx : ek79007
  dsi_calls : Nat
  trace : List Call

/-- The world on entry of a driver call on the instance `ctx`. -/
def World.enter (ctx : ek79007) : World := ⟨ctx, 0, []⟩

/-- Records a call in the trace. -/
def World.log (w : World) (c : Call) : World :=
  { w with trace := w.trace ++ [c] }

/-- Modelled from the spec: the body of `regulator_enable` (declared in
`linux/regulator/consumer.h`) is missing; section 4.4 gives
`enable() -> Result<(), PowerError>`. It returns the environment's value; on
success (0) the rail gains one enable, on failure its state is unchanged. -/
def regulator_enable (env : Env) (w : World) : Int × World :=
  if env.regulator_enable = 0 then
    (0, { w.log Call.regulator_enable with
            ctx := { w.ctx with power := ⟨w.ctx.power.use_count + 1⟩ } })
  else
    (env.regulator_enable, w.log Call.regulator_enable)

/-- Modelled from the spec: the body of `regulator_disable` is missing;
section 4.4 gives an infallible `disable()`. It drops one enable (an
unbalanced disable leaves the rail off). -/
def regulator_disable (w : World) : World :=
  { w.log Call.regulator_disable with
      ctx := { w.ctx with power := ⟨w.ctx.power.use_count - 1⟩ } }

/-- Modelled from the spec: the body of `gpiod_set_value` is missing;
section 4.4 gives an infallible `set_reset(asserted)`. It sets the logical
value of the reset line. -/
def gpiod_set_value (value : Nat) (w : World) : World :=
  { w.log (Call.gpiod_set_value value) with
      ctx := { w.ctx with reset := ⟨value⟩ } }

/-- The blocking delay `msleep`: it changes nothing but is recorded. -/
def msleep (msecs : Nat) (w : World) : World :=
  w.log (Call.msleep msecs)

/-- One call on the DSI command transport: it is recorded, counted, and
returns the value the environment gives for its position. -/
def dsi_call (env : Env) (c : Call) (w : World) : Int × World :=
  (env.dsi w.dsi_calls,
   { w with dsi_calls := w.dsi_calls + 1, trace := w.trace ++ [c] })

/-- Transport write of a byte buffer, `mipi_dsi_dcs_write_buffer`. -/
def mipi_dsi_dcs_write_buffer (env : Env) (buff : List Nat) (w : World) : Int × World :=
  dsi_call env (Call.mipi_dsi_dcs_write_buffer buff) w

/-- DCS command "exit sleep mode". -/
def mipi_dsi_dcs_exit_sleep_mode (env : Env) (w : World) : Int × World :=
  dsi_call env Call.mipi_dsi_dcs_exit_sleep_mode w

/-- DCS command "enter sleep mode". -/
def mipi_dsi_dcs_enter_sleep_mode (env : Env) (w : World) : Int × World :=
  dsi_call env Call.mipi_dsi_dcs_enter_sleep_mode w

/-- DCS command "set display on". -/
def mipi_dsi_dcs_set_display_on (env : Env) (w : World) : Int × World :=
  dsi_call env Call.mipi_dsi_dcs_set_display_on w

/-- DCS command "set display off". -/
def mipi_dsi_dcs_set_display_off (env : Env) (w : World) : Int × World :=
  dsi_call env Call.mipi_dsi_dcs_set_display_off w

/-! ## The driver -/

/-- The table `LX700B4008CTP14_init`. -/
def LX700B4008CTP14_init : List ek79007_instr :=
  [ .EK79007_COMMAND 0x80 0x8b,
    .EK79007_COMMAND 0x81 0x78,
    .EK79007_COMMAND 0x82 0x84,
    .EK79007_COMMAND 0x83 0x88,
    .EK79007_COMMAND 0x84 0xa8,
    .EK79007_COMMAND 0x85 0xe3,
    .EK79007_COMMAND 0x86 0x88,
    .EK79007_COMMAND 0xb2 0x10 ]

/-- The function `ek79007_switch_page`: writes `{0x00, 0x00, 0x00, page}` and
returns the transport's value when it is negative, else 0. -/
def ek79007_switch_page (env : Env) (page : Nat) (w : World) : Int × World :=
  let buff := [0x00, 0x00, 0x00, page]
  let r := mipi_dsi_dcs_write_buffer env buff w
  if r.1 < 0 then (r.1, r.2) else (0, r.2)

/-- The function `ek79007_send_cmd_data`: writes `{cmd, data}` and returns the
transport's value when it is negative, else 0. -/
def ek79007_send_cmd_data (env : Env) (cmd data : Nat) (w : World) : Int × World :=
  let buff := [cmd, data]
  let r := mipi_dsi_dcs_write_buffer env buff w
  if r.1 < 0 then (r.1, r.2) else (0, r.2)

/-- The `for` loop of `ek79007_prepare` from counter value `i` on: it returns
the non-zero `ret` of the iteration that leaves the function early, or 0 when
the loop runs to its end. -/
def ek79007_prepare_loop (env : Env) (init : List ek79007_instr) (i : Nat) (w : World) :
    Int × World :=
  if h : i < init.length then
    let r :=
      match init.get ⟨i, h⟩ with
      | .EK79007_SWITCH_PAGE page => ek79007_switch_page env page w
      | .EK79007_COMMAND cmd data => ek79007_send_cmd_data env cmd data w
    if r.1 ≠ 0 then r else ek79007_prepare_loop env init (i + 1) r.2
  else
    (0, w)
termination_by init.length - i

/-- The callback `ek79007_prepare`. -/
def ek79007_prepare (env : Env) (w : World) : Int × World :=
  let r := regulator_enable env w
  if r.1 ≠ 0 then r else
  let w := msleep 5 r.2
  let w := gpiod_set_value 1 w
  let w := msleep 20 w
  let w := gpiod_set_value 0 w
  let w := msleep 20 w
  let r := ek79007_prepare_loop env w.ctx.desc.init 0 w
  if r.1 ≠ 0 then r else
  let r := mipi_dsi_dcs_exit_sleep_mode env r.2
  if r.1 ≠ 0 then r else
  let w := msleep 120 r.2
  let r := mipi_dsi_dcs_set_display_on env w
  if r.1 ≠ 0 then r else
  let w := msleep 120 r.2
  (0, w)

/-- The callback `ek79007_enable`. -/
def ek79007_enable (env : Env) (w : World) : Int × World :=
  let w := msleep 120 w
  mipi_dsi_dcs_set_display_on env w

/-- The callback `ek79007_disable`. -/
def ek79007_disable (env : Env) (w : World) : Int × World :=
  mipi_dsi_dcs_set_display_off env w

/-- The callback `ek79007_unprepare`: the value of the enter-sleep command is
dropped. -/
def ek79007_unprepare (env : Env) (w : World) : Int × World :=
  let w := (mipi_dsi_dcs_enter_sleep_mode env w).2
  let w := regulator_disable w
  let w := gpiod_set_value 1 w
  (0, w)

/-- The object `LX700B4008CTP14_default_mode`, its initialiser list taken
designator by designator in source order (`.htotal` is named twice, `.vtotal`
never). -/
def LX700B4008CTP14_default_mode : drm_display_mode :=
  drm_display_mode.initialise
    [ (.clock, 51260),
      (.hdisplay, 1024),
      (.hsync_start, 1024 + 160),
      (.hsync_end, 1024 + 160 + 1),
      (.htotal, 1024 + 160 + 160 + 1),
      (.vdisplay, 600),
      (.vsync_start, 600 + 10),
      (.vsync_end, 600 + 10 + 2),
      (.htotal, 600 + 10 + 10 + 2),
      (.width_mm, 154),
      (.height_mm, 85) ]

/-- The descriptor `LX700B4008CTP14_desc`. -/
def LX700B4008CTP14_desc : ek79007_desc :=
  ⟨LX700B4008CTP14_init, LX700B4008CTP14_default_mode⟩

/-! ## Mode provider -/

/-- The members of `struct drm_connector` that `get_modes` writes: the list
`probed_modes` and the physical size in `display_info`. -/
structure drm_connector where
  probed_modes : List drm_display_mode
  width_mm : Nat
  height_mm : Nat
  deriving DecidableEq

/-- Error number `ENOMEM` of `linux/errno.h`. -/
def ENOMEM : Int := 12

/-- Mode type bit `DRM_MODE_TYPE_PREFERRED` of `drm/drm_mode.h`. -/
def DRM_MODE_TYPE_PREFERRED : Nat := 1 <<< 3

/-- Mode type bit `DRM_MODE_TYPE_DRIVER` of `drm/drm_mode.h`. -/
def DRM_MODE_TYPE_DRIVER : Nat := 1 <<< 6

/-- Modelled from the spec: the body of `drm_mode_duplicate` is missing;
section 4.5 has the mode "duplicated so the caller may own its copy", failing
only when the duplication cannot be performed. `ok` tells whether the
allocation succeeds; the copy has every member of the original. -/
def drm_mode_duplicate (ok : Bool) (mode : drm_display_mode) : Option drm_display_mode :=
  if ok then some mode else none

/-- Modelled from the spec: the body of `drm_mode_set_name` is missing; it
names a mode after its active size, `<hdisplay>x<vdisplay>`. -/
def drm_mode_set_name (mode : drm_display_mode) : drm_display_mode :=
  { mode with name := toString mode.hdisplay ++ "x" ++ toString mode.vdisplay }

/-- Modelled from the spec: the body of `drm_mode_probe_add` is missing; it
hands the mode to the connector by appending it to `probed_modes`. -/
def drm_mode_probe_add (connector : drm_connector) (mode : drm_display_mode) :
    drm_connector :=
  { connector with probed_modes := connector.probed_modes ++ [mode] }

/-- The callback `ek79007_get_modes`; `dup_ok` is the outcome of the
allocation inside `drm_mode_duplicate`. -/
def ek79007_get_modes (dup_ok : Bool) (ctx : ek79007) (connector : drm_connector) :
    Int × drm_connector :=
  match drm_mode_duplicate dup_ok ctx.desc.mode with
  | none => (-ENOMEM, connector)
  | some mode =>
    let mode := drm_mode_set_name mode
    let mode := { mode with type := DRM_MODE_TYPE_DRIVER ||| DRM_MODE_TYPE_PREFERRED }
    let connector := drm_mode_probe_add connector mode
    let connector := { connector with width_mm := mode.width_mm,
                                      height_mm := mode.height_mm }
    (1, connector)

/-! ## Probe -/

/-- Flag `MIPI_DSI_MODE_VIDEO_SYNC_PULSE` of `drm/drm_mipi_dsi.h`. -/
def MIPI_DSI_MODE_VIDEO_SYNC_PULSE : Nat := 1 <<< 2

/-- Pixel format `MIPI_DSI_FMT_RGB888` of `drm/drm_mipi_dsi.h`. -/
def MIPI_DSI_FMT_RGB888 : Nat := 0

/-- Modelled from the spec: the flag `GPIOD_OUT_LOW` of
`linux/gpio/consumer.h` is missing and section 4.4 only gives the line a
logical level; the flag is taken with the meaning its name carries, an output
whose logical value starts at 0 (low). -/
def GPIOD_OUT_LOW : gpio_desc := ⟨0⟩

/-- Outcomes of the collaborators of `probe`: whether `devm_kzalloc` returns
memory, the descriptor matched by `of_device_get_match_data`, the error carried
by the pointer of `devm_regulator_get` and of `devm_gpiod_get` (`none` for a
valid handle), and the values returned by `drm_panel_of_backlight` and
`mipi_dsi_attach`. -/
structure ProbeEnv where
  devm_kzalloc : Bool
  match_data : ek79007_desc
  devm_regulator_get : Option Int
  devm_gpiod_get : Option Int
  drm_panel_of_backlight : Int
  mipi_dsi_attach : Int

/-- The function `ek79007_dsi_probe`: its return value and, once every handle
of the instance has been acquired, the instance it has built. A regulator
handle just obtained holds no enable. -/
def ek79007_dsi_probe (penv : ProbeEnv) : Int × Option ek79007 :=
  if ¬ penv.devm_kzalloc then (-ENOMEM, none) else
  let desc := penv.match_data
  match penv.devm_regulator_get with
  | some err => (err, none)
  | none =>
    let power : regulator := ⟨0⟩
    match penv.devm_gpiod_get with
    | some err => (err, none)
    | none =>
      let reset : gpio_desc := GPIOD_OUT_LOW
      let ret := penv.drm_panel_of_backlight
      if ret ≠ 0 then (ret, none) else
      let dsi : mipi_dsi_device := ⟨MIPI_DSI_MODE_VIDEO_SYNC_PULSE, MIPI_DSI_FMT_RGB888, 2⟩
      (penv.mipi_dsi_attach, some ⟨dsi, desc, power, reset⟩)

/-! ## Observations on instances and traces -/

/-- The state Off of the lifecycle: power rail off and reset line asserted. -/
def Off (ctx : ek79007) : Prop :=
  ctx.power.use_count = 0 ∧ ctx.reset.value = 1

instance (ctx : ek79007) : Decidable (Off ctx) := by
  unfold Off; infer_instance

/-- Whether a call goes over the DSI command transport. -/
def Call.isTransport : Call → Bool
  | .mipi_dsi_dcs_write_buffer _ => true
  | .mipi_dsi_dcs_exit_sleep_mode => true
  | .mipi_dsi_dcs_enter_sleep_mode => true
  | .mipi_dsi_dcs_set_display_on => true
  | .mipi_dsi_dcs_set_display_off => true
  | _ => false

/-- The transport calls of a trace, in order. -/
def transportCalls (t : List Call) : List Call := t.filter Call.isTransport

/-- The byte buffers written over the transport in a trace, in order. -/
def bufferWrites (t : List Call) : List (List Nat) :=
  t.filterMap fun c =>
    match c with
    | .mipi_dsi_dcs_write_buffer buff => some buff
    | _ => none

/-- The part of a trace that lies before the first occurrence of `c`. -/
def before (c : Call) (t : List Call) : List Call := t.takeWhile (fun x => x ≠ c)

/-- The wire encoding the driver gives an instruction: 4 bytes for a page
select, 2 bytes for a command. -/
def encode : ek79007_instr → List Nat
  | .EK79007_SWITCH_PAGE page => [0x00, 0x00, 0x00, page]
  | .EK79007_COMMAND cmd data => [cmd, data]

/-- The transport write expected for an instruction. -/
def writeOf (instr : ek79007_instr) : Call := Call.mipi_dsi_dcs_write_buffer (encode instr)

/-- The calls of `prepare` up to the release of reset. -/
def powerUp : List Call :=
  [Call.regulator_enable, Call.msleep 5, Call.gpiod_set_value 1, Call.msleep 20,
   Call.gpiod_set_value 0, Call.msleep 20]

/-- The calls of `prepare` after the vendor instructions. -/
def wakeUp : List Call :=
  [Call.mipi_dsi_dcs_exit_sleep_mode, Call.msleep 120,
   Call.mipi_dsi_dcs_set_display_on, Call.msleep 120]

/-- The reference sequence of a complete `prepare` for a descriptor. -/
def referenceSequence (desc : ek79007_desc) : List Call :=
  powerUp ++ desc.init.map writeOf ++ wakeUp

/-- The transport operations of a complete `prepare`, in order. -/
def referenceTransport (desc : ek79007_desc) : List Call :=
  desc.init.map writeOf ++
    [Call.mipi_dsi_dcs_exit_sleep_mode, Call.mipi_dsi_dcs_set_display_on]

/-- Whether the `n`-th transport operation of `prepare` is reported as failed
to the caller: a vendor write fails on a negative value, the two DCS commands
on any non-zero value. -/
def transportFails (env : Env) (desc : ek79007_desc) (n : Nat) : Prop :=
  if n < desc.init_length then env.dsi n < 0 else env.dsi n ≠ 0

instance (env : Env) (desc : ek79007_desc) (n : Nat) : Decidable (transportFails env desc n) := by
  unfold transportFails; infer_instance

/-- The invariant of a display mode on both axes. -/
def modeInvariant (m : drm_display_mode) : Prop :=
  (m.hdisplay ≤ m.hsync_start ∧ m.hsync_start < m.hsync_end ∧ m.hsync_end < m.htotal) ∧
  (m.vdisplay ≤ m.vsync_start ∧ m.vsync_start < m.vsync_end ∧ m.vsync_end < m.vtotal)

instance (m : drm_display_mode) : Decidable (modeInvariant m) := by
  unfold modeInvariant; infer_instance

/-- The instructions still to be sent, by recursion on the list: the reference
the indexed loop is compared with. -/
def sendAll (env : Env) : List ek79007_instr → World → Int × World
  | [], w => (0, w)
  | instr :: rest, w =>
    let r :=
      match instr with
      | .EK79007_SWITCH_PAGE page => ek79007_switch_page env page w
      | .EK79007_COMMAND cmd data => ek79007_send_cmd_data env cmd data w
    if r.1 ≠ 0 then r else sendAll env rest r.2

/-- The cycle prepare, enable, disable, unprepare on one instance, each
callback with its own collaborator outcomes: the four return values and the
instance at the end. -/
def lifecycle (e1 e2 e3 e4 : Env) (ctx : ek79007) : List Int × ek79007 :=
  let r1 := ek79007_prepare e1 (World.enter ctx)
  let r2 := ek79007_enable e2 (World.enter r1.2.ctx)
  let r3 := ek79007_disable e3 (World.enter r2.2.ctx)
  let r4 := ek79007_unprepare e4 (World.enter r3.2.ctx)
  ([r1.1, r2.1, r3.1, r4.1], r4.2.ctx)

/-- The timing and size members of a mode, in the order clock, hdisplay,
hsync_start, hsync_end, htotal, vdisplay, vsync_start, vsync_end, vtotal,
width_mm, height_mm. -/
def drm_display_mode.timings (m : drm_display_mode) : List Nat :=
  [m.clock, m.hdisplay, m.hsync_start, m.hsync_end, m.htotal, m.vdisplay, m.vsync_start,
   m.vsync_end, m.vtotal, m.width_mm, m.height_mm]

/-! ## Concrete inputs -/

/-- Collaborators of `probe` that all succeed, matching the reference panel. -/
def probeEnvOk : ProbeEnv := ⟨true, LX700B4008CTP14_desc, none, none, 0, 0⟩

/-- The instance `probe` builds for the reference panel. -/
def ctxProbed : ek79007 :=
  ⟨⟨MIPI_DSI_MODE_VIDEO_SYNC_PULSE, MIPI_DSI_FMT_RGB888, 2⟩, LX700B4008CTP14_desc, ⟨0⟩,
    GPIOD_OUT_LOW⟩

/-- The reference panel after a successful `prepare`: one enable on the rail,
reset released. -/
def ctxPrepared : ek79007 :=
  ⟨⟨MIPI_DSI_MODE_VIDEO_SYNC_PULSE, MIPI_DSI_FMT_RGB888, 2⟩, LX700B4008CTP14_desc, ⟨1⟩, ⟨0⟩⟩

/-- The reference panel after a `prepare` that failed on a write followed by a
`prepare` that succeeded: two enables on the rail, reset released. -/
def ctxTwiceEnabled : ek79007 :=
  ⟨⟨MIPI_DSI_MODE_VIDEO_SYNC_PULSE, MIPI_DSI_FMT_RGB888, 2⟩, LX700B4008CTP14_desc, ⟨2⟩, ⟨0⟩⟩

/-- Every collaborator call succeeds (transport calls return 0). -/
def envOk : Env := ⟨0, fun _ => 0⟩

/-- The power enable succeeds and every transport call fails with `-EIO`. -/
def envLinkDown : Env := ⟨0, fun _ => -5⟩

/-- The power enable succeeds, the first two transport calls succeed and
every later one fails with `-EIO`. -/
def envThirdFails : Env := ⟨0, fun n => if n < 2 then 0 else -5⟩

/-- The power enable fails with `-ENODEV`. -/
def envNoPower : Env := ⟨-19, fun _ => 0⟩

/-! ## The loop -/

theorem prepare_loop_eq_sendAll (env : Env) (init : List ek79007_instr) :
    ∀ (n i : Nat) (w : World), init.length - i = n →
      ek79007_prepare_loop env init i w = sendAll env (init.drop i) w := by
  intro n
  induction n with
  | zero =>
    intro i w h
    have hi : init.length ≤ i := by omega
    rw [ek79007_prepare_loop, dif_neg (by omega), List.drop_of_length_le hi]
    rfl
  | succ n ih =>
    intro i w h
    have hi : i < init.length := by omega
    rw [ek79007_prepare_loop, dif_pos hi, List.drop_eq_getElem_cons hi]
    simp only [sendAll, List.get_eq_getElem]
    rw [ih (i + 1) _ (by omega)]

/-- What sending one instruction does: one write of its encoding, reported as
failed exactly when the transport returns a negative value. -/
theorem send_instr (env : Env) (instr : ek79007_instr) (w : World) :
    (match instr with
      | .EK79007_SWITCH_PAGE page => ek79007_switch_page env page w
      | .EK79007_COMMAND cmd data => ek79007_send_cmd_data env cmd data w) =
    (if env.dsi w.dsi_calls < 0 then env.dsi w.dsi_calls else 0,
      ⟨w.ctx, w.dsi_calls + 1, w.trace ++ [writeOf instr]⟩) := by
  cases instr <;>
    simp only [ek79007_switch_page, ek79007_send_cmd_data, mipi_dsi_dcs_write_buffer,
      dsi_call, writeOf, encode] <;>
    split <;> rfl

/-- The instructions are sent in order until the first failing write: `m` writes
are issued, and either all of them succeed and `m` is the whole list, or the
last one fails and its value is returned. -/
theorem sendAll_spec (env : Env) :
    ∀ (l : List ek79007_instr) (w : World),
      ∃ m, m ≤ l.length ∧
        (sendAll env l w).2 = ⟨w.ctx, w.dsi_calls + m, w.trace ++ (l.take m).map writeOf⟩ ∧
        (((sendAll env l w).1 = 0 ∧ m = l.length ∧
            ∀ j, j < m → 0 ≤ env.dsi (w.dsi_calls + j)) ∨
         ((sendAll env l w).1 = env.dsi (w.dsi_calls + (m - 1)) ∧ 1 ≤ m ∧
            env.dsi (w.dsi_calls + (m - 1)) < 0 ∧
            ∀ j, j < m - 1 → 0 ≤ env.dsi (w.dsi_calls + j))) := by
  intro l
  induction l with
  | nil =>
    intro w
    exact ⟨0, le_refl _, by simp [sendAll], Or.inl ⟨rfl, rfl, by intro j hj; omega⟩⟩
  | cons instr rest ih =>
    intro w
    simp only [sendAll, send_instr]
    by_cases hneg : env.dsi w.dsi_calls < 0
    · have hne : env.dsi w.dsi_calls ≠ 0 := by omega
      refine ⟨1, by simp, ?_, Or.inr ⟨?_, le_refl _, by simpa using hneg, by intro j hj; omega⟩⟩
      · simp [hneg, hne]
      · simp [hneg, hne]
    · obtain ⟨m, hm, hw, hcase⟩ :=
        ih ⟨w.ctx, w.dsi_calls + 1, w.trace ++ [writeOf instr]⟩
      simp only [if_neg hneg, ne_eq, not_true_eq_false, if_false]
      refine ⟨m + 1, by simpa using hm, ?_, ?_⟩
      · rw [hw]
        simp [Nat.add_assoc, Nat.add_comm 1 m]
      · rcases hcase with ⟨h0, hlen, hall⟩ | ⟨hret, h1, hlt, hall⟩
        · refine Or.inl ⟨h0, by simp [hlen], ?_⟩
          intro j hj
          cases j with
          | zero => simpa using not_lt.mp hneg
          | succ j =>
            have := hall j (by omega)
            simpa [Nat.add_assoc, Nat.add_comm 1 j] using this
        · have e : w.dsi_calls + 1 + (m - 1) = w.dsi_calls + (m + 1 - 1) := by omega
          refine Or.inr ⟨by rw [hret, e], by omega, by rw [← e]; exact hlt, ?_⟩
          intro j hj
          cases j with
          | zero => simpa using not_lt.mp hneg
          | succ j =>
            have := hall j (by omega)
            simpa [Nat.add_assoc, Nat.add_comm 1 j] using this

/-- The world in which the loop of `prepare` starts when the power enable
succeeded. -/
theorem prepare_reaches_loop (env : Env) (ctx : ek79007) (h : env.regulator_enable = 0) :
    ek79007_prepare env (World.enter ctx) =
      (let w : World := ⟨⟨ctx.dsi, ctx.desc, ⟨ctx.power.use_count + 1⟩, ⟨0⟩⟩, 0, powerUp⟩
       let r := sendAll env ctx.desc.init w
       if r.1 ≠ 0 then r else
       let r := mipi_dsi_dcs_exit_sleep_mode env r.2
       if r.1 ≠ 0 then r else
       let w := msleep 120 r.2
       let r := mipi_dsi_dcs_set_display_on env w
       if r.1 ≠ 0 then r else
       (0, msleep 120 r.2)) := by
  simp only [ek79007_prepare, regulator_enable, h, if_true, msleep, gpiod_set_value,
    World.log, World.enter, ne_eq, not_true_eq_false, if_false, List.nil_append,
    List.cons_append, powerUp]
  rw [prepare_loop_eq_sendAll env ctx.desc.init _ 0 _ rfl]
  rfl

/-- Every way `prepare` can run, with its return value, final instance,
number of transport calls and trace. -/
theorem prepare_cases (env : Env) (ctx : ek79007) :
    (env.regulator_enable ≠ 0 ∧
      ek79007_prepare env (World.enter ctx) =
        (env.regulator_enable, ⟨ctx, 0, [Call.regulator_enable]⟩)) ∨
    (env.regulator_enable = 0 ∧
      ((∃ k, k < ctx.desc.init.length ∧ (∀ j, j < k → 0 ≤ env.dsi j) ∧ env.dsi k < 0 ∧
          ek79007_prepare env (World.enter ctx) =
            (env.dsi k, ⟨⟨ctx.dsi, ctx.desc, ⟨ctx.power.use_count + 1⟩, ⟨0⟩⟩, k + 1,
              powerUp ++ (ctx.desc.init.take (k + 1)).map writeOf⟩)) ∨
       ((∀ j, j < ctx.desc.init.length → 0 ≤ env.dsi j) ∧
          ((env.dsi ctx.desc.init.length ≠ 0 ∧
              ek79007_prepare env (World.enter ctx) =
                (env.dsi ctx.desc.init.length,
                  ⟨⟨ctx.dsi, ctx.desc, ⟨ctx.power.use_count + 1⟩, ⟨0⟩⟩,
                    ctx.desc.init.length + 1,
                    powerUp ++ ctx.desc.init.map writeOf ++
                      [Call.mipi_dsi_dcs_exit_sleep_mode]⟩)) ∨
           (env.dsi ctx.desc.init.length = 0 ∧ env.dsi (ctx.desc.init.length + 1) ≠ 0 ∧
              ek79007_prepare env (World.enter ctx) =
                (env.dsi (ctx.desc.init.length + 1),
                  ⟨⟨ctx.dsi, ctx.desc, ⟨ctx.power.use_count + 1⟩, ⟨0⟩⟩,
                    ctx.desc.init.length + 2,
                    powerUp ++ ctx.desc.init.map writeOf ++
                      [Call.mipi_dsi_dcs_exit_sleep_mode, Call.msleep 120,
                       Call.mipi_dsi_dcs_set_display_on]⟩)) ∨
           (env.dsi ctx.desc.init.length = 0 ∧ env.dsi (ctx.desc.init.length + 1) = 0 ∧
              ek79007_prepare env (World.enter ctx) =
                (0, ⟨⟨ctx.dsi, ctx.desc, ⟨ctx.power.use_count + 1⟩, ⟨0⟩⟩,
                    ctx.desc.init.length + 2, referenceSequence ctx.desc⟩)))))) := by
  by_cases hreg : env.regulator_enable = 0
  · refine Or.inr ⟨hreg, ?_⟩
    rw [prepare_reaches_loop env ctx hreg]
    obtain ⟨m, hm, hw, hcase⟩ := sendAll_spec env ctx.desc.init
      ⟨⟨ctx.dsi, ctx.desc, ⟨ctx.power.use_count + 1⟩, ⟨0⟩⟩, 0, powerUp⟩
    simp only [Nat.zero_add] at hw hcase
    rcases hcase with ⟨h0, hlen, hall⟩ | ⟨hret, h1, hlt, hall⟩
    · subst hlen
      refine Or.inr ⟨hall, ?_⟩
      simp only [h0, hw, List.take_length, ne_eq, not_true_eq_false, if_false,
        mipi_dsi_dcs_exit_sleep_mode, mipi_dsi_dcs_set_display_on, dsi_call, msleep,
        World.log]
      by_cases hs : env.dsi ctx.desc.init.length = 0
      · by_cases hd : env.dsi (ctx.desc.init.length + 1) = 0
        · refine Or.inr (Or.inr ⟨hs, hd, ?_⟩)
          simp [hs, hd, referenceSequence, wakeUp]
        · refine Or.inr (Or.inl ⟨hs, hd, ?_⟩)
          simp [hs, hd]
      · refine Or.inl ⟨hs, ?_⟩
        simp [hs]
    · refine Or.inl ⟨m - 1, by omega, hall, hlt, ?_⟩
      have hne : (sendAll env ctx.desc.init
          ⟨⟨ctx.dsi, ctx.desc, ⟨ctx.power.use_count + 1⟩, ⟨0⟩⟩, 0, powerUp⟩).1 ≠ 0 := by
        rw [hret]; omega
      have hm1 : m - 1 + 1 = m := by omega
      simp only [hne, ne_eq, not_false_eq_true, if_true, hm1]
      exact Prod.ext hret hw
  · refine Or.inl ⟨hreg, ?_⟩
    simp [ek79007_prepare, regulator_enable, hreg, World.log, World.enter]

/-! ## Traces -/

theorem bufferWrites_append (a b : List Call) :
    bufferWrites (a ++ b) = bufferWrites a ++ bufferWrites b := by
  simp [bufferWrites, List.filterMap_append]

theorem bufferWrites_map_writeOf (l : List ek79007_instr) :
    bufferWrites (l.map writeOf) = l.map encode := by
  induction l with
  | nil => rfl
  | cons x xs ih =>
    simp only [List.map_cons]
    rw [← ih]
    rfl

theorem transportCalls_append (a b : List Call) :
    transportCalls (a ++ b) = transportCalls a ++ transportCalls b := by
  simp [transportCalls, List.filter_append]

theorem transportCalls_map_writeOf (l : List ek79007_instr) :
    transportCalls (l.map writeOf) = l.map writeOf := by
  induction l with
  | nil => rfl
  | cons x xs ih =>
    have step : transportCalls (writeOf x :: xs.map writeOf) =
        writeOf x :: transportCalls (xs.map writeOf) := rfl
    rw [List.map_cons, step, ih]

theorem transportFails_write (env : Env) (desc : ek79007_desc) (n : Nat)
    (h : n < desc.init.length) : transportFails env desc n ↔ env.dsi n < 0 := by
  simp [transportFails, ek79007_desc.init_length, h]

theorem transportFails_command (env : Env) (desc : ek79007_desc) (n : Nat)
    (h : desc.init.length ≤ n) : transportFails env desc n ↔ env.dsi n ≠ 0 := by
  simp [transportFails, ek79007_desc.init_length, not_lt.mpr h]

/-! ## Properties of `prepare` -/

theorem before_append_cons (c : Call) (a rest : List Call) (h : ∀ x ∈ a, x ≠ c) :
    before c (a ++ c :: rest) = a := by
  induction a with
  | nil => simp [before]
  | cons y ys ih =>
    have hy : y ≠ c := h y (List.mem_cons_self _ _)
    have hys := ih (fun x hx => h x (List.mem_cons_of_mem _ hx))
    simp only [before] at hys ⊢
    rw [List.cons_append, List.takeWhile_cons, hys]
    simp [hy]

theorem no_exit_sleep_before_wake_up (l : List ek79007_instr) :
    ∀ x ∈ powerUp ++ l.map writeOf, x ≠ Call.mipi_dsi_dcs_exit_sleep_mode := by
  intro x hx
  rcases List.mem_append.mp hx with hp | hm
  · intro e
    subst e
    revert hp
    decide
  · obtain ⟨instr, _, rfl⟩ := List.mem_map.mp hm
    simp [writeOf]

/-- C1: when the power enable and every vendor write succeed, the buffers
`prepare` writes over the transport are exactly the encodings of the
descriptor's instructions in declaration order, one write per instruction
(4 bytes `[0,0,0,page]` for a page select, 2 bytes `[cmd,data]` for a command):
the trace is the power-up calls, then these writes, then the exit-sleep
command followed by what `prepare` still does of the wake-up part, so that
everything before the exit-sleep command is the power-up calls and the writes,
and no write comes after it. -/
theorem prepare_writes_in_declaration_order (env : Env) (ctx : ek79007)
    (hpower : env.regulator_enable = 0)
    (hwrites : ∀ j, j < ctx.desc.init_length → ¬ transportFails env ctx.desc j) :
    bufferWrites (ek79007_prepare env (World.enter ctx)).2.trace = ctx.desc.init.map encode ∧
    before Call.mipi_dsi_dcs_exit_sleep_mode (ek79007_prepare env (World.enter ctx)).2.trace =
      powerUp ++ ctx.desc.init.map writeOf ∧
    ∃ rest, Call.mipi_dsi_dcs_exit_sleep_mode :: rest <+: wakeUp ∧
      (ek79007_prepare env (World.enter ctx)).2.trace =
        powerUp ++ ctx.desc.init.map writeOf ++ Call.mipi_dsi_dcs_exit_sleep_mode :: rest := by
  have key : ∃ rest, Call.mipi_dsi_dcs_exit_sleep_mode :: rest <+: wakeUp ∧
      bufferWrites (Call.mipi_dsi_dcs_exit_sleep_mode :: rest) = [] ∧
      (ek79007_prepare env (World.enter ctx)).2.trace =
        powerUp ++ ctx.desc.init.map writeOf ++
          Call.mipi_dsi_dcs_exit_sleep_mode :: rest := by
    rcases prepare_cases env ctx with ⟨hne, _⟩ | ⟨_, hB | ⟨_, hC | hD | hE⟩⟩
    · exact absurd hpower hne
    · obtain ⟨k, hk, _, hlt, _⟩ := hB
      exact absurd ((transportFails_write env ctx.desc k hk).mpr hlt) (hwrites k hk)
    · exact ⟨[], ⟨_, rfl⟩, rfl, by rw [hC.2]⟩
    · exact ⟨[Call.msleep 120, Call.mipi_dsi_dcs_set_display_on], ⟨_, rfl⟩, rfl,
        by rw [hD.2.2]⟩
    · exact ⟨[Call.msleep 120, Call.mipi_dsi_dcs_set_display_on, Call.msleep 120],
        ⟨[], rfl⟩, rfl, by rw [hE.2.2]; rfl⟩
  obtain ⟨rest, hpre, hnone, ht⟩ := key
  refine ⟨?_, ?_, rest, hpre, ht⟩
  · rw [ht, bufferWrites_append, bufferWrites_append, bufferWrites_map_writeOf, hnone]
    simp [bufferWrites, powerUp]
  · rw [ht]
    exact before_append_cons _ _ _ (no_exit_sleep_before_wake_up ctx.desc.init)

theorem prepare_writes_in_declaration_order_witness :
    envOk.regulator_enable = 0 ∧
    (∀ j, j < ctxProbed.desc.init_length → ¬ transportFails envOk ctxProbed.desc j) ∧
    bufferWrites (ek79007_prepare envOk (World.enter ctxProbed)).2.trace =
      ctxProbed.desc.init.map encode :=
  ⟨rfl, by decide,
    (prepare_writes_in_declaration_order envOk ctxProbed rfl (by decide)).1⟩

/-- C5: when enabling the power rail fails, `prepare` returns that error after
the single call `regulator_enable`: no delay, no change of the reset line, no
transport call, and the instance is unchanged (so an instance that was Off
remains Off). -/
theorem prepare_power_failure (env : Env) (ctx : ek79007)
    (hpower : env.regulator_enable ≠ 0) :
    (ek79007_prepare env (World.enter ctx)).1 = env.regulator_enable ∧
    (ek79007_prepare env (World.enter ctx)).2.trace = [Call.regulator_enable] ∧
    (ek79007_prepare env (World.enter ctx)).2.dsi_calls = 0 ∧
    (ek79007_prepare env (World.enter ctx)).2.ctx = ctx ∧
    (Off ctx → Off (ek79007_prepare env (World.enter ctx)).2.ctx) := by
  rcases prepare_cases env ctx with ⟨_, h⟩ | ⟨h0, _⟩
  · rw [h]
    exact ⟨rfl, rfl, rfl, rfl, id⟩
  · exact absurd h0 hpower

theorem prepare_power_failure_witness :
    envNoPower.regulator_enable ≠ 0 ∧
    (ek79007_prepare envNoPower (World.enter ctxProbed)).1 = -19 ∧
    (ek79007_prepare envNoPower (World.enter ctxProbed)).2.trace = [Call.regulator_enable] ∧
    (ek79007_prepare envNoPower (World.enter ctxProbed)).2.ctx = ctxProbed :=
  ⟨by decide,
    (prepare_power_failure envNoPower ctxProbed (by decide)).1,
    (prepare_power_failure envNoPower ctxProbed (by decide)).2.1,
    (prepare_power_failure envNoPower ctxProbed (by decide)).2.2.2.1⟩

/-- C6: whatever the collaborators return, the trace of `prepare` is an initial
segment of the reference sequence (power enable, wait 5, reset asserted,
wait 20, reset released, wait 20, the vendor writes in order, exit sleep,
wait 120, display on, wait 120), and it is the whole sequence exactly when
`prepare` returns 0: no delay before an executed step is skipped, shortened or
moved. -/
theorem prepare_trace_initial_segment (env : Env) (ctx : ek79007) :
    (ek79007_prepare env (World.enter ctx)).2.trace <+: referenceSequence ctx.desc ∧
    ((ek79007_prepare env (World.enter ctx)).1 = 0 ↔
      (ek79007_prepare env (World.enter ctx)).2.trace = referenceSequence ctx.desc) := by
  have hlen : (referenceSequence ctx.desc).length = ctx.desc.init.length + 10 := by
    simp [referenceSequence, powerUp, wakeUp]
  rcases prepare_cases env ctx with ⟨hne, h⟩ | ⟨_, hB | ⟨_, hC | hD | hE⟩⟩
  · rw [h]
    refine ⟨⟨_, rfl⟩, ?_⟩
    simp only [hne, false_iff]
    intro e
    have := congrArg List.length e
    rw [hlen] at this
    simp at this
  · obtain ⟨k, hk, _, hlt, h⟩ := hB
    rw [h]
    refine ⟨?_, ?_⟩
    · refine ⟨(ctx.desc.init.drop (k + 1)).map writeOf ++ wakeUp, ?_⟩
      simp only [referenceSequence, List.append_assoc]
      rw [← List.append_assoc (List.map writeOf (List.take (k + 1) ctx.desc.init)),
        ← List.map_append, List.take_append_drop]
    · have hne : env.dsi k ≠ 0 := by omega
      simp only [hne, false_iff]
      intro e
      have := congrArg List.length e
      rw [hlen] at this
      simp [powerUp] at this
      omega
  · obtain ⟨hne, h⟩ := hC
    rw [h]
    refine ⟨⟨[Call.msleep 120, Call.mipi_dsi_dcs_set_display_on, Call.msleep 120], ?_⟩, ?_⟩
    · simp [referenceSequence, wakeUp]
    · simp only [hne, false_iff]
      intro e
      have := congrArg List.length e
      rw [hlen] at this
      simp [powerUp] at this
  · obtain ⟨_, hne, h⟩ := hD
    rw [h]
    refine ⟨⟨[Call.msleep 120], ?_⟩, ?_⟩
    · simp [referenceSequence, wakeUp]
    · simp only [hne, false_iff]
      intro e
      have := congrArg List.length e
      rw [hlen] at this
      simp [powerUp] at this
  · obtain ⟨_, _, h⟩ := hE
    rw [h]
    exact ⟨List.prefix_refl _, by simp⟩

theorem transportCalls_referenceSequence (desc : ek79007_desc) :
    transportCalls (referenceSequence desc) = referenceTransport desc := by
  rw [referenceSequence, transportCalls_append, transportCalls_append,
    transportCalls_map_writeOf]
  rfl

/-- A run of `prepare` in which nothing fails returns 0 after the whole
reference sequence. -/
theorem prepare_success (env : Env) (ctx : ek79007) (hpower : env.regulator_enable = 0)
    (hok : ∀ j, j < ctx.desc.init_length + 2 → ¬ transportFails env ctx.desc j) :
    ek79007_prepare env (World.enter ctx) =
      (0, ⟨⟨ctx.dsi, ctx.desc, ⟨ctx.power.use_count + 1⟩, ⟨0⟩⟩, ctx.desc.init.length + 2,
        referenceSequence ctx.desc⟩) := by
  have hn : ctx.desc.init_length = ctx.desc.init.length := rfl
  rcases prepare_cases env ctx with ⟨hne, _⟩ | ⟨_, hB | ⟨_, hC | hD | hE⟩⟩
  · exact absurd hpower hne
  · obtain ⟨k, hk, _, hlt, _⟩ := hB
    exact absurd ((transportFails_write env ctx.desc k hk).mpr hlt) (hok k (by omega))
  · exact absurd ((transportFails_command env ctx.desc _ (le_refl _)).mpr hC.1)
      (hok _ (by omega))
  · exact absurd ((transportFails_command env ctx.desc _ (Nat.le_succ _)).mpr hD.2.1)
      (hok _ (by omega))
  · exact hE.2.2

/-- C2: when the power enable succeeds and the first transport operation to
fail is the `k`-th one (vendor writes first, then exit sleep, then display on),
`prepare` returns the value of that operation, has made exactly `k` transport
calls, and these are the first `k` transport operations of a run in which
nothing fails. -/
theorem prepare_stops_at_first_failure (env : Env) (ctx : ek79007) (k : Nat)
    (hpower : env.regulator_enable = 0)
    (hk1 : 1 ≤ k) (hk2 : k ≤ ctx.desc.init_length + 2)
    (hok : ∀ j, j < k - 1 → ¬ transportFails env ctx.desc j)
    (hfail : transportFails env ctx.desc (k - 1)) :
    (ek79007_prepare env (World.enter ctx)).1 = env.dsi (k - 1) ∧
    (ek79007_prepare env (World.enter ctx)).1 ≠ 0 ∧
    (ek79007_prepare env (World.enter ctx)).2.dsi_calls = k ∧
    transportCalls (ek79007_prepare env (World.enter ctx)).2.trace =
      (referenceTransport ctx.desc).take k ∧
    ∀ good : Env, good.regulator_enable = 0 →
      (∀ j, j < ctx.desc.init_length + 2 → ¬ transportFails good ctx.desc j) →
      transportCalls (ek79007_prepare env (World.enter ctx)).2.trace =
        (transportCalls (ek79007_prepare good (World.enter ctx)).2.trace).take k := by
  have hn : ctx.desc.init_length = ctx.desc.init.length := rfl
  rw [hn] at hk2
  have hlenM : (ctx.desc.init.map writeOf).length = ctx.desc.init.length := by simp
  have main : (ek79007_prepare env (World.enter ctx)).1 = env.dsi (k - 1) ∧
      (ek79007_prepare env (World.enter ctx)).1 ≠ 0 ∧
      (ek79007_prepare env (World.enter ctx)).2.dsi_calls = k ∧
      transportCalls (ek79007_prepare env (World.enter ctx)).2.trace =
        (referenceTransport ctx.desc).take k := by
    rcases prepare_cases env ctx with ⟨hne, _⟩ | ⟨_, hB | ⟨hall, hC | hD | hE⟩⟩
    · exact absurd hpower hne
    · obtain ⟨k', hk', hall, hlt, h⟩ := hB
      have hkk : k - 1 = k' := by
        rcases Nat.lt_trichotomy (k - 1) k' with hl | he | hg
        · have h1 := (transportFails_write env ctx.desc (k - 1) (by omega)).mp hfail
          have h2 := hall (k - 1) hl
          omega
        · exact he
        · exact absurd ((transportFails_write env ctx.desc k' hk').mpr hlt) (hok k' hg)
      have hk : k = k' + 1 := by omega
      subst hk
      rw [h]
      refine ⟨by simp, by simp; omega, rfl, ?_⟩
      simp only [transportCalls_append, transportCalls_map_writeOf, referenceTransport]
      rw [List.take_append_of_le_length (by rw [hlenM]; omega), List.map_take]
      rfl
    · obtain ⟨hne, h⟩ := hC
      have hkk : k - 1 = ctx.desc.init.length := by
        rcases Nat.lt_trichotomy (k - 1) ctx.desc.init.length with hl | he | hg
        · have h1 := (transportFails_write env ctx.desc (k - 1) hl).mp hfail
          have h2 := hall (k - 1) hl
          omega
        · exact he
        · exact absurd ((transportFails_command env ctx.desc _ (le_refl _)).mpr hne)
            (hok _ hg)
      have hk : k = ctx.desc.init.length + 1 := by omega
      rw [h]
      refine ⟨by simp [hkk], by simpa using hne, hk.symm, ?_⟩
      simp only [transportCalls_append, transportCalls_map_writeOf, referenceTransport]
      rw [hk, ← hlenM, List.take_append]
      rfl
    · obtain ⟨h0, hne, h⟩ := hD
      have hkk : k - 1 = ctx.desc.init.length + 1 := by
        rcases Nat.lt_trichotomy (k - 1) ctx.desc.init.length with hl | he | hg
        · have h1 := (transportFails_write env ctx.desc (k - 1) hl).mp hfail
          have h2 := hall (k - 1) hl
          omega
        · rw [he] at hfail
          exact absurd h0 ((transportFails_command env ctx.desc _ (le_refl _)).mp hfail)
        · omega
      have hk : k = ctx.desc.init.length + 2 := by omega
      rw [h]
      refine ⟨by simp [hkk], by simpa using hne, hk.symm, ?_⟩
      simp only [transportCalls_append, transportCalls_map_writeOf, referenceTransport]
      rw [hk, ← hlenM, List.take_append]
      rfl
    · obtain ⟨h0, h1, _⟩ := hE
      exfalso
      rcases Nat.lt_trichotomy (k - 1) ctx.desc.init.length with hl | he | hg
      · have h1 := (transportFails_write env ctx.desc (k - 1) hl).mp hfail
        have h2 := hall (k - 1) hl
        omega
      · rw [he] at hfail
        exact absurd h0 ((transportFails_command env ctx.desc _ (le_refl _)).mp hfail)
      · have he : k - 1 = ctx.desc.init.length + 1 := by omega
        rw [he] at hfail
        exact absurd h1 ((transportFails_command env ctx.desc _ (Nat.le_succ _)).mp hfail)
  refine ⟨main.1, main.2.1, main.2.2.1, main.2.2.2, ?_⟩
  intro good hg hgood
  rw [prepare_success good ctx hg hgood, main.2.2.2]
  simp only [transportCalls_referenceSequence]

theorem prepare_stops_at_first_failure_witness :
    envThirdFails.regulator_enable = 0 ∧
    (∀ j, j < 3 - 1 → ¬ transportFails envThirdFails ctxProbed.desc j) ∧
    transportFails envThirdFails ctxProbed.desc (3 - 1) ∧
    (ek79007_prepare envThirdFails (World.enter ctxProbed)).1 = -5 ∧
    transportCalls (ek79007_prepare envThirdFails (World.enter ctxProbed)).2.trace =
      [Call.mipi_dsi_dcs_write_buffer [0x80, 0x8b],
       Call.mipi_dsi_dcs_write_buffer [0x81, 0x78],
       Call.mipi_dsi_dcs_write_buffer [0x82, 0x84]] :=
  ⟨rfl, by decide, by decide,
    (prepare_stops_at_first_failure envThirdFails ctxProbed 3 rfl (by decide) (by decide)
      (by decide) (by decide)).1,
    (prepare_stops_at_first_failure envThirdFails ctxProbed 3 rfl (by decide) (by decide)
      (by decide) (by decide)).2.2.2.1⟩

/-- A run of `prepare` that returns 0 has gone through the whole reference
sequence. -/
theorem prepare_returns_zero (env : Env) (ctx : ek79007)
    (hret : (ek79007_prepare env (World.enter ctx)).1 = 0) :
    ek79007_prepare env (World.enter ctx) =
      (0, ⟨⟨ctx.dsi, ctx.desc, ⟨ctx.power.use_count + 1⟩, ⟨0⟩⟩, ctx.desc.init.length + 2,
        referenceSequence ctx.desc⟩) := by
  rcases prepare_cases env ctx with ⟨hne, h⟩ | ⟨_, hB | ⟨_, hC | hD | hE⟩⟩
  · rw [h] at hret
    exact absurd hret hne
  · obtain ⟨k, _, _, hlt, h⟩ := hB
    rw [h] at hret
    have : env.dsi k = 0 := hret
    omega
  · rw [hC.2] at hret
    exact absurd hret hC.1
  · rw [hD.2.2] at hret
    exact absurd hret hD.2.1
  · exact hE.2.2

/-- C3 (as the code behaves): when the power enable succeeded and a transport
operation of `prepare` fails, `prepare` returns a non-zero value without
undoing the power-up: the rail keeps the enable it has just gained, the reset
line stays released (value 0), and the instance is not Off. -/
theorem prepare_failure_leaves_power_on (env : Env) (ctx : ek79007)
    (hpower : env.regulator_enable = 0)
    (hfail : ∃ k, k < ctx.desc.init_length + 2 ∧ transportFails env ctx.desc k) :
    (ek79007_prepare env (World.enter ctx)).1 ≠ 0 ∧
    (ek79007_prepare env (World.enter ctx)).2.ctx.power.use_count =
      ctx.power.use_count + 1 ∧
    (ek79007_prepare env (World.enter ctx)).2.ctx.reset.value = 0 ∧
    ¬ Off (ek79007_prepare env (World.enter ctx)).2.ctx := by
  have hn : ctx.desc.init_length = ctx.desc.init.length := rfl
  have hnotOff : ∀ c : ek79007, c.reset.value = 0 → ¬ Off c := by
    intro c hc hoff
    have := hoff.2
    omega
  rcases prepare_cases env ctx with ⟨hne, _⟩ | ⟨_, hB | ⟨hall, hC | hD | hE⟩⟩
  · exact absurd hpower hne
  · obtain ⟨k, _, _, hlt, h⟩ := hB
    rw [h]
    exact ⟨by simp; omega, rfl, rfl, hnotOff _ rfl⟩
  · rw [hC.2]
    exact ⟨hC.1, rfl, rfl, hnotOff _ rfl⟩
  · rw [hD.2.2]
    exact ⟨hD.2.1, rfl, rfl, hnotOff _ rfl⟩
  · obtain ⟨k, hk, hf⟩ := hfail
    exfalso
    rcases Nat.lt_trichotomy k ctx.desc.init.length with hl | he | hg
    · have h1 := (transportFails_write env ctx.desc k hl).mp hf
      have h2 := hall k hl
      omega
    · rw [he] at hf
      exact absurd hE.1 ((transportFails_command env ctx.desc _ (le_refl _)).mp hf)
    · have he : k = ctx.desc.init.length + 1 := by omega
      rw [he] at hf
      exact absurd hE.2.1 ((transportFails_command env ctx.desc _ (Nat.le_succ _)).mp hf)

theorem prepare_failure_leaves_power_on_witness :
    envLinkDown.regulator_enable = 0 ∧
    (∃ k, k < ctxProbed.desc.init_length + 2 ∧ transportFails envLinkDown ctxProbed.desc k) ∧
    (ek79007_prepare envLinkDown (World.enter ctxProbed)).2.ctx.power.use_count =
      ctxProbed.power.use_count + 1 ∧
    (ek79007_prepare envLinkDown (World.enter ctxProbed)).2.ctx.reset.value = 0 :=
  ⟨rfl, ⟨0, by decide, by decide⟩,
    (prepare_failure_leaves_power_on envLinkDown ctxProbed rfl
      ⟨0, by decide, by decide⟩).2.1,
    (prepare_failure_leaves_power_on envLinkDown ctxProbed rfl
      ⟨0, by decide, by decide⟩).2.2.1⟩

/-- C3 fails as stated: on the probed reference panel, with the power enable
succeeding and the first vendor write failing with `-EIO`, `prepare` returns
`-EIO` and the instance is not Off (rail enabled, reset released). -/
theorem prepare_failure_not_off :
    envLinkDown.regulator_enable = 0 ∧
    transportFails envLinkDown ctxProbed.desc 0 ∧
    (ek79007_prepare envLinkDown (World.enter ctxProbed)).1 = -5 ∧
    (ek79007_prepare envLinkDown (World.enter ctxProbed)).2.ctx.power.use_count = 1 ∧
    (ek79007_prepare envLinkDown (World.enter ctxProbed)).2.ctx.reset.value = 0 ∧
    ¬ Off (ek79007_prepare envLinkDown (World.enter ctxProbed)).2.ctx := by
  rw [prepare_reaches_loop envLinkDown ctxProbed rfl]
  decide

/-! ## Properties of `unprepare` -/

/-- C4 (as the code behaves): whatever the enter-sleep command returns,
`unprepare` returns 0 and performs, in this order, the enter-sleep command, one
power rail disable and the assertion of the reset line (value 1). The reset
line always ends asserted and the rail always loses one enable; the instance
ends Off exactly when it held at most one enable of its rail on entry. -/
theorem unprepare_always_completes (env : Env) (ctx : ek79007) :
    (ek79007_unprepare env (World.enter ctx)).1 = 0 ∧
    (ek79007_unprepare env (World.enter ctx)).2.trace =
      [Call.mipi_dsi_dcs_enter_sleep_mode, Call.regulator_disable, Call.gpiod_set_value 1] ∧
    (ek79007_unprepare env (World.enter ctx)).2.ctx.reset.value = 1 ∧
    (ek79007_unprepare env (World.enter ctx)).2.ctx.power.use_count =
      ctx.power.use_count - 1 ∧
    (Off (ek79007_unprepare env (World.enter ctx)).2.ctx ↔ ctx.power.use_count ≤ 1) := by
  refine ⟨rfl, rfl, rfl, rfl, ?_⟩
  show (ctx.power.use_count - 1 = 0 ∧ (1 : Nat) = 1) ↔ ctx.power.use_count ≤ 1
  constructor
  · intro h
    have := h.1
    omega
  · intro h
    exact ⟨by omega, rfl⟩

theorem unprepare_always_completes_witness :
    ctxPrepared.power.use_count ≤ 1 ∧
    envLinkDown.dsi 0 ≠ 0 ∧
    (ek79007_unprepare envLinkDown (World.enter ctxPrepared)).1 = 0 ∧
    Off (ek79007_unprepare envLinkDown (World.enter ctxPrepared)).2.ctx :=
  ⟨by decide, by decide,
    (unprepare_always_completes envLinkDown ctxPrepared).1,
    (unprepare_always_completes envLinkDown ctxPrepared).2.2.2.2.mpr (by decide)⟩

/-- C4 fails as stated: on the probed reference panel a `prepare` that fails on
its first write (`-EIO`) followed by a `prepare` that succeeds leaves two
enables on the rail; `unprepare` then returns 0 with the reset line asserted
but one enable still on the rail, so the instance is not Off. -/
theorem unprepare_after_retry_not_off :
    (ek79007_prepare envLinkDown (World.enter ctxProbed)).1 = -5 ∧
    (ek79007_prepare envOk
      (World.enter (ek79007_prepare envLinkDown (World.enter ctxProbed)).2.ctx)).1 = 0 ∧
    (ek79007_prepare envOk
      (World.enter (ek79007_prepare envLinkDown (World.enter ctxProbed)).2.ctx)).2.ctx =
        ctxTwiceEnabled ∧
    (ek79007_unprepare envOk (World.enter ctxTwiceEnabled)).1 = 0 ∧
    (ek79007_unprepare envOk (World.enter ctxTwiceEnabled)).2.ctx.reset.value = 1 ∧
    (ek79007_unprepare envOk (World.enter ctxTwiceEnabled)).2.ctx.power.use_count = 1 ∧
    ¬ Off (ek79007_unprepare envOk (World.enter ctxTwiceEnabled)).2.ctx := by
  have h1 : (ek79007_prepare envLinkDown (World.enter ctxProbed)).1 = -5 ∧
      (ek79007_prepare envLinkDown (World.enter ctxProbed)).2.ctx = ctxPrepared := by
    rw [prepare_reaches_loop envLinkDown ctxProbed rfl]
    decide
  rw [h1.2, prepare_success envOk ctxPrepared rfl (by decide)]
  exact ⟨h1.1, rfl, by decide, rfl, rfl, rfl, by decide⟩

/-! ## The reference panel -/

/-- C7 (as the code behaves): for the reference descriptor, a `prepare` that
returns 0 has issued 8 transport writes before the exit-sleep command, the
first being `[0x80, 0x8b]` and the last `[0xb2, 0x10]`, and no write after. -/
theorem reference_prepare_issues_eight_writes (env : Env) (ctx : ek79007)
    (hdesc : ctx.desc = LX700B4008CTP14_desc)
    (hret : (ek79007_prepare env (World.enter ctx)).1 = 0) :
    (bufferWrites (before Call.mipi_dsi_dcs_exit_sleep_mode
      (ek79007_prepare env (World.enter ctx)).2.trace)).length = 8 ∧
    (bufferWrites (before Call.mipi_dsi_dcs_exit_sleep_mode
      (ek79007_prepare env (World.enter ctx)).2.trace)).head? = some [0x80, 0x8b] ∧
    (bufferWrites (before Call.mipi_dsi_dcs_exit_sleep_mode
      (ek79007_prepare env (World.enter ctx)).2.trace)).getLast? = some [0xb2, 0x10] ∧
    bufferWrites (ek79007_prepare env (World.enter ctx)).2.trace =
      bufferWrites (before Call.mipi_dsi_dcs_exit_sleep_mode
        (ek79007_prepare env (World.enter ctx)).2.trace) := by
  rw [prepare_returns_zero env ctx hret, hdesc]
  dsimp only
  decide

theorem reference_prepare_issues_eight_writes_witness :
    ctxProbed.desc = LX700B4008CTP14_desc ∧
    (ek79007_prepare envOk (World.enter ctxProbed)).1 = 0 ∧
    (bufferWrites (before Call.mipi_dsi_dcs_exit_sleep_mode
      (ek79007_prepare envOk (World.enter ctxProbed)).2.trace)).length = 8 :=
  ⟨rfl, by rw [prepare_success envOk ctxProbed rfl (by decide)],
    (reference_prepare_issues_eight_writes envOk ctxProbed rfl
      (by rw [prepare_success envOk ctxProbed rfl (by decide)])).1⟩

/-- C7 fails as stated: on the probed reference panel with every collaborator
succeeding, `prepare` returns 0 and the number of transport writes before the
exit-sleep command is 8, not 9. -/
theorem reference_prepare_not_nine_writes :
    (ek79007_prepare envOk (World.enter ctxProbed)).1 = 0 ∧
    (bufferWrites (before Call.mipi_dsi_dcs_exit_sleep_mode
      (ek79007_prepare envOk (World.enter ctxProbed)).2.trace)).length = 8 ∧
    (bufferWrites (before Call.mipi_dsi_dcs_exit_sleep_mode
      (ek79007_prepare envOk (World.enter ctxProbed)).2.trace)).length ≠ 9 := by
  rw [prepare_success envOk ctxProbed rfl (by decide)]
  decide

/-- C10 (evaluation of the code): in `LX700B4008CTP14_default_mode` the second
`.htotal` initialiser overrides the first and `.vtotal` is never set, so
`htotal` is 622 and `vtotal` is 0; `hsync_end < htotal` and
`vsync_end < vtotal` both fail and the mode invariant does not hold. -/
theorem default_mode_breaks_invariant :
    LX700B4008CTP14_default_mode.htotal = 622 ∧
    LX700B4008CTP14_default_mode.vtotal = 0 ∧
    LX700B4008CTP14_default_mode.hsync_end = 1185 ∧
    LX700B4008CTP14_default_mode.vsync_end = 612 ∧
    ¬ (LX700B4008CTP14_default_mode.hsync_end < LX700B4008CTP14_default_mode.htotal) ∧
    ¬ (LX700B4008CTP14_default_mode.vsync_end < LX700B4008CTP14_default_mode.vtotal) ∧
    ¬ modeInvariant LX700B4008CTP14_default_mode := by
  decide

/-- C8 (evaluation of the code): when duplication succeeds, `get_modes` on the
probed reference panel returns 1 and hands over one mode whose timing members
are those of the descriptor's default mode; they are clock 51260,
hdisplay 1024, hsync_start 1184, hsync_end 1185, vdisplay 600,
vsync_start 610, vsync_end 612, width 154 mm, height 85 mm, but htotal is 622
(not 1345) and vtotal is 0 (not 622). -/
theorem get_modes_reference_timings :
    (ek79007_get_modes true ctxProbed ⟨[], 0, 0⟩).1 = 1 ∧
    (ek79007_get_modes true ctxProbed ⟨[], 0, 0⟩).2.probed_modes.map
        drm_display_mode.timings =
      [LX700B4008CTP14_default_mode.timings] ∧
    (ek79007_get_modes true ctxProbed ⟨[], 0, 0⟩).2.probed_modes.map
        drm_display_mode.timings =
      [[51260, 1024, 1184, 1185, 622, 600, 610, 612, 0, 154, 85]] ∧
    (ek79007_get_modes true ctxProbed ⟨[], 0, 0⟩).2.probed_modes.map
        drm_display_mode.timings ≠
      [[51260, 1024, 1184, 1185, 1345, 600, 610, 612, 622, 154, 85]] := by
  decide

/-! ## Round trip -/

/-- The instance a successful `probe` leaves: rail without enable, reset line
at 0. -/
theorem probe_instance (penv : ProbeEnv) (ctx : ek79007)
    (hprobe : ek79007_dsi_probe penv = (0, some ctx)) :
    ctx = ⟨⟨MIPI_DSI_MODE_VIDEO_SYNC_PULSE, MIPI_DSI_FMT_RGB888, 2⟩, penv.match_data, ⟨0⟩,
      ⟨0⟩⟩ := by
  unfold ek79007_dsi_probe at hprobe
  split at hprobe
  · simp at hprobe
  · split at hprobe
    · simp at hprobe
    · split at hprobe
      · simp at hprobe
      · dsimp only at hprobe
        split at hprobe
        · simp at hprobe
        · simp only [Prod.mk.injEq, Option.some.injEq] at hprobe
          exact hprobe.2.symm

/-- C9 (as the code behaves): from an instance just built by a successful
`probe`, the cycle prepare, enable, disable, unprepare with the power enable
and every transport call of prepare, enable and disable succeeding (and
whatever the enter-sleep command returns) returns 0 four times and gives back
the probed instance in everything but the reset line: same descriptor and DSI configuration, power
rail off with its enables balanced, while the reset line is asserted (1)
where `probe` had left it at 0. -/
theorem round_trip_restores_all_but_reset (penv : ProbeEnv) (ctx : ek79007)
    (e1 e2 e3 e4 : Env)
    (hprobe : ek79007_dsi_probe penv = (0, some ctx))
    (hpower : e1.regulator_enable = 0)
    (hprepare : ∀ j, j < ctx.desc.init_length + 2 → ¬ transportFails e1 ctx.desc j)
    (henable : e2.dsi 0 = 0) (hdisable : e3.dsi 0 = 0) :
    (lifecycle e1 e2 e3 e4 ctx).1 = [0, 0, 0, 0] ∧
    (lifecycle e1 e2 e3 e4 ctx).2 = { ctx with reset := ⟨1⟩ } ∧
    (lifecycle e1 e2 e3 e4 ctx).2.power.use_count = 0 ∧
    ctx.power.use_count = 0 ∧
    (lifecycle e1 e2 e3 e4 ctx).2.reset.value = 1 ∧
    ctx.reset.value = 0 := by
  have hctx := probe_instance penv ctx hprobe
  have hp := prepare_success e1 ctx hpower hprepare
  have hcount : ctx.power.use_count = 0 := by rw [hctx]
  have hreset : ctx.reset.value = 0 := by rw [hctx]
  have hcycle : lifecycle e1 e2 e3 e4 ctx =
      ([0, 0, 0, 0], ⟨ctx.dsi, ctx.desc, ⟨ctx.power.use_count + 1 - 1⟩, ⟨1⟩⟩) := by
    simp only [lifecycle]
    rw [hp]
    simp only [ek79007_enable, ek79007_disable, ek79007_unprepare,
      mipi_dsi_dcs_set_display_on, mipi_dsi_dcs_set_display_off,
      mipi_dsi_dcs_enter_sleep_mode, dsi_call, msleep, gpiod_set_value, regulator_disable,
      World.log, World.enter, henable, hdisable]
  rw [hcycle]
  refine ⟨rfl, ?_, ?_, hcount, rfl, hreset⟩
  · show (⟨ctx.dsi, ctx.desc, ⟨ctx.power.use_count + 1 - 1⟩, ⟨1⟩⟩ : ek79007) =
      ⟨ctx.dsi, ctx.desc, ctx.power, ⟨1⟩⟩
    rw [Nat.add_sub_cancel]
  · show ctx.power.use_count + 1 - 1 = 0
    omega

theorem round_trip_restores_all_but_reset_witness :
    ek79007_dsi_probe probeEnvOk = (0, some ctxProbed) ∧
    envOk.regulator_enable = 0 ∧
    (∀ j, j < ctxProbed.desc.init_length + 2 → ¬ transportFails envOk ctxProbed.desc j) ∧
    envOk.dsi 0 = 0 ∧
    (lifecycle envOk envOk envOk envOk ctxProbed).1 = [0, 0, 0, 0] ∧
    (lifecycle envOk envOk envOk envOk ctxProbed).2 = { ctxProbed with reset := ⟨1⟩ } :=
  ⟨by decide, rfl, by decide, rfl,
    (round_trip_restores_all_but_reset probeEnvOk ctxProbed envOk envOk envOk envOk
      (by decide) rfl (by decide) rfl rfl).1,
    (round_trip_restores_all_but_reset probeEnvOk ctxProbed envOk envOk envOk envOk
      (by decide) rfl (by decide) rfl rfl).2.1⟩

/-- C9 fails as stated: on the reference panel, with every collaborator call
succeeding, the instance after prepare, enable, disable, unprepare has its
reset line at 1 while the instance built by `probe` has it at 0, so the two
are not the same. -/
theorem round_trip_reset_line_differs :
    ek79007_dsi_probe probeEnvOk = (0, some ctxProbed) ∧
    (lifecycle envOk envOk envOk envOk ctxProbed).1 = [0, 0, 0, 0] ∧
    ctxProbed.reset.value = 0 ∧
    (lifecycle envOk envOk envOk envOk ctxProbed).2.reset.value = 1 ∧
    (lifecycle envOk envOk envOk envOk ctxProbed).2 ≠ ctxProbed := by
  have hp := prepare_success envOk ctxProbed rfl (by decide)
  simp only [lifecycle]
  rw [hp]
  decide

end EK79007
